import Mathlib

set_option maxRecDepth 16384

/-!
Verification development for the `tpm-stuff` secure-connection session layer.

The repository is a thin layer over the go-tpm `tpm2` package.  The layer's
own code (the session constructors in `secure_connection/unbound`,
`secure_connection/bound`, `secure_connection/salted` and
`secure_connection/common`) is embedded directly from the source.  The
device-side behaviour those constructors rely on (seal/unseal semantics,
authorization checking, slot lifecycle, nonce rotation) lives outside the
repository, so it is modelled from the specification; each such definition
carries a doc comment starting with `Modelled from the spec:`.
-/

namespace tpm2

/-- Hash algorithm identifiers used by this layer (`tpm2.TPMAlgSHA1`,
`TPMAlgSHA256`, `TPMAlgSHA384`, `TPMAlgSHA512`).  Only the name/session
hash algorithms exercised by the repository are embedded. -/
inductive TPMAlgID where
  | SHA1
  | SHA256
  | SHA384
  | SHA512
deriving DecidableEq, Repr

/-- Embedding of `tpm2.TPM2BName`: a content-derived entity name, treated as
an uninterpreted byte string by this layer. -/
structure TPM2BName where
  buffer : List Nat
deriving DecidableEq, Repr

/-- Embedding of `tpm2.TPMTPublic` as carried by this layer: the salt key's
public area is passed through to start-session without interpretation, so
it is kept as raw bytes. -/
structure TPMTPublic where
  raw : List Nat
deriving DecidableEq, Repr

/-- Parameter-encryption direction (`tpm2.EncryptIn`, `EncryptOut`,
`EncryptInOut`). -/
inductive EncryptDirection where
  | dirIn
  | dirOut
  | dirInOut
deriving DecidableEq, Repr

/-- Symmetric cipher mode requested for parameter encryption; go-tpm's
`AESEncryption` always selects AES in CFB mode. -/
inductive SymMode where
  | CFB
deriving DecidableEq, Repr

/-- The symmetric parameter-encryption request recorded in the session
options by `tpm2.AESEncryption` (algorithm AES, key size in bits, CFB
mode, and a direction). -/
structure SymCipherSpec where
  keyBits : Nat
  mode : SymMode
  direction : EncryptDirection
deriving DecidableEq, Repr

/-- Embedding of go-tpm's `sessionOptions`: the record the `AuthOption`
functional options mutate.  `none` for `bindHandle`/`saltHandle` embeds
`TPM_RH_NULL`; `none` for `encryption` embeds a null symmetric spec. -/
structure sessionOptions where
  auth : List Nat
  bindHandle : Option Nat
  bindName : TPM2BName
  bindAuth : List Nat
  saltHandle : Option Nat
  saltPub : Option TPMTPublic
  encryption : Option SymCipherSpec
deriving DecidableEq, Repr

/-- Embedding of go-tpm's `defaultOptions`: no auth value, bind and salt
both `TPM_RH_NULL`, no symmetric encryption. -/
def defaultOptions : sessionOptions :=
  { auth := []
    bindHandle := none
    bindName := ⟨[]⟩
    bindAuth := []
    saltHandle := none
    saltPub := none
    encryption := none }

/-- A functional session option, as in go-tpm's `AuthOption`. -/
def AuthOption : Type := sessionOptions → sessionOptions

/-- Embedding of `tpm2.Auth`: records the caller's auth value. -/
def Auth (authValue : List Nat) : AuthOption :=
  fun o => { o with auth := authValue }

/-- Embedding of `tpm2.Bound`: records the bind entity (handle, name, auth
value).  It does not touch the salt fields. -/
def Bound (bindHandle : Nat) (bindName : TPM2BName) (bindAuth : List Nat) :
    AuthOption :=
  fun o =>
    { o with
      bindHandle := some bindHandle
      bindName := bindName
      bindAuth := bindAuth }

/-- Embedding of `tpm2.Salted`: records the salt key (handle and public
area).  It does not touch the bind fields. -/
def Salted (saltHandle : Nat) (saltPub : TPMTPublic) : AuthOption :=
  fun o =>
    { o with
      saltHandle := some saltHandle
      saltPub := some saltPub }

/-- Embedding of `tpm2.AESEncryption`: requests AES parameter encryption in
CFB mode with the given key size and direction. -/
def AESEncryption (keyBits : Nat) (direction : EncryptDirection) : AuthOption :=
  fun o => { o with encryption := some ⟨keyBits, SymMode.CFB, direction⟩ }

/-- Embedding of an HMAC session value as configured by `tpm2.HMAC` /
`tpm2.HMACSession`: the hash algorithm, the nonceCaller size, and the
accumulated session options. -/
structure hmacSession where
  hash : TPMAlgID
  nonceSize : Nat
  opts : sessionOptions
deriving DecidableEq, Repr

/-- Embedding of `tpm2.HMAC`: builds an inline (ephemeral) HMAC session by
folding the functional options over the defaults. -/
def HMAC (hash : TPMAlgID) (nonceSize : Nat) (opts : List AuthOption) :
    hmacSession :=
  { hash := hash
    nonceSize := nonceSize
    opts := opts.foldl (fun o f => f o) defaultOptions }

/-- Embedding of the session-descriptor part of `tpm2.HMACSession`: the
persistent variant configures the session identically to `tpm2.HMAC`; the
transport argument and the device-side slot allocation it performs are
modelled separately by `startSession`. -/
def HMACSession (hash : TPMAlgID) (nonceSize : Nat) (opts : List AuthOption) :
    hmacSession :=
  HMAC hash nonceSize opts

end tpm2

namespace unbound

/-- Embedding of `unbound.Unbound` (secure_connection/unbound/unbound.go):
an inline unbound HMAC session, SHA-256, 16-byte nonceCaller, caller auth
value, AES-128-CFB parameter encryption in both directions. -/
def Unbound (authValue : List Nat) : tpm2.hmacSession :=
  tpm2.HMAC tpm2.TPMAlgID.SHA256 16
    [tpm2.Auth authValue,
     tpm2.AESEncryption 128 tpm2.EncryptDirection.dirInOut]

/-- Embedding of `unbound.UnboundSession`: the persistent variant of
`Unbound`, configured identically. -/
def UnboundSession (authValue : List Nat) : tpm2.hmacSession :=
  tpm2.HMACSession tpm2.TPMAlgID.SHA256 16
    [tpm2.Auth authValue,
     tpm2.AESEncryption 128 tpm2.EncryptDirection.dirInOut]

end unbound

namespace bound

/-- Embedding of `bound.Bound` (secure_connection/bound/bound.go): an inline
bound HMAC session, SHA-256, 16-byte nonceCaller, bind entity plus caller
auth value, AES-128-CFB parameter encryption in both directions. -/
def Bound (bindHandle : Nat) (bindName : tpm2.TPM2BName)
    (bindAuth : List Nat) (authValue : List Nat) : tpm2.hmacSession :=
  tpm2.HMAC tpm2.TPMAlgID.SHA256 16
    [tpm2.Bound bindHandle bindName bindAuth,
     tpm2.Auth authValue,
     tpm2.AESEncryption 128 tpm2.EncryptDirection.dirInOut]

/-- Embedding of `bound.BoundSession`: the persistent variant of `Bound`,
configured identically. -/
def BoundSession (bindHandle : Nat) (bindName : tpm2.TPM2BName)
    (bindAuth : List Nat) (authValue : List Nat) : tpm2.hmacSession :=
  tpm2.HMACSession tpm2.TPMAlgID.SHA256 16
    [tpm2.Bound bindHandle bindName bindAuth,
     tpm2.Auth authValue,
     tpm2.AESEncryption 128 tpm2.EncryptDirection.dirInOut]

end bound

namespace salted

/-- Embedding of `salted.Salted` (secure_connection/salted/salted.go): an
inline salted HMAC session, SHA-256, 16-byte nonceCaller, salt key, AES-128
CFB parameter encryption in both directions, and no auth value (pure
encryption session). -/
def Salted (saltKeyHandle : Nat) (saltKeyPublic : tpm2.TPMTPublic) :
    tpm2.hmacSession :=
  tpm2.HMAC tpm2.TPMAlgID.SHA256 16
    [tpm2.Salted saltKeyHandle saltKeyPublic,
     tpm2.AESEncryption 128 tpm2.EncryptDirection.dirInOut]

/-- Embedding of `salted.SaltedSession`: the persistent variant of `Salted`,
configured identically. -/
def SaltedSession (saltKeyHandle : Nat) (saltKeyPublic : tpm2.TPMTPublic) :
    tpm2.hmacSession :=
  tpm2.HMACSession tpm2.TPMAlgID.SHA256 16
    [tpm2.Salted saltKeyHandle saltKeyPublic,
     tpm2.AESEncryption 128 tpm2.EncryptDirection.dirInOut]

end salted

namespace common

/-- Embedding of `common.HMACAuth` (secure_connection/common/helpers.go and
the complex demo): an inline HMAC session for authorization only, SHA-256,
16-byte nonceCaller, caller auth value, and no parameter encryption. -/
def HMACAuth (authValue : List Nat) : tpm2.hmacSession :=
  tpm2.HMAC tpm2.TPMAlgID.SHA256 16 [tpm2.Auth authValue]

end common

/-- Modelled from the spec: the error taxonomy of §7 (the go-tpm error
values and TPM response codes these map to are outside the repository).
`SealDataTooLarge` names the device's rejection of a sealed-data payload
over `MAX_SYM_DATA`. -/
inductive TPMError where
  | WrongSecret
  | InvalidConfiguration
  | SlotExhausted
  | AlreadyReleased
  | NonceMismatch
  | SealDataTooLarge
deriving DecidableEq, Repr

/-- Modelled from the spec: the §4.1 descriptor-builder check that bind and
salt are never both active — a configuration with both is an
`InvalidConfiguration` failure (the builder that would perform this check
lives in go-tpm, outside the repository). -/
def validateDescriptor (o : tpm2.sessionOptions) :
    Except TPMError tpm2.sessionOptions :=
  if o.bindHandle.isSome && o.saltHandle.isSome then
    Except.error TPMError.InvalidConfiguration
  else
    Except.ok o

/-- Modelled from the spec: the device's maximum sealed-data size,
`MAX_SYM_DATA` = 128 bytes, a property of the symmetric cipher and hence
independent of the object's name-hash algorithm (§9 open question, and the
table in `TestSealDataSizeLimits`). -/
def maxSealedDataSize (_nameAlg : tpm2.TPMAlgID) : Nat := 128

/-- Modelled from the spec: a sealed keyed-hash object as created by
seal-style `Create`/`CreatePrimary` — it records the name algorithm, the
object's auth value, and the sealed payload. -/
structure SealedObject where
  nameAlg : tpm2.TPMAlgID
  authValue : List Nat
  payload : List Nat
deriving DecidableEq, Repr

/-- Modelled from the spec: sealing a payload under a keyed-hash object
(the device-side `Create` with `SealingData`, exercised by the repository's
unseal tests).  The device rejects payloads over `MAX_SYM_DATA` with an
error and never truncates. -/
def sealData (nameAlg : tpm2.TPMAlgID) (userAuth payload : List Nat) :
    Except TPMError SealedObject :=
  if payload.length ≤ maxSealedDataSize nameAlg then
    Except.ok ⟨nameAlg, userAuth, payload⟩
  else
    Except.error TPMError.SealDataTooLarge

/-- Modelled from the spec: `Unseal` on a sealed object — returns the
payload unmodified when the presented authorization matches the object's
auth value, and fails with `WrongSecret` otherwise. -/
def unsealData (obj : SealedObject) (auth : List Nat) :
    Except TPMError (List Nat) :=
  if auth = obj.authValue then
    Except.ok obj.payload
  else
    Except.error TPMError.WrongSecret

/-- Modelled from the spec: the device state the hierarchy-authorization
tests observe — the owner hierarchy's current auth value. -/
structure TPMState where
  ownerAuth : List Nat
deriving DecidableEq, Repr

/-- Modelled from the spec: `HierarchyChangeAuth` on the owner hierarchy
replaces the hierarchy's auth value. -/
def hierarchyChangeAuth (_st : TPMState) (newAuth : List Nat) : TPMState :=
  ⟨newAuth⟩

/-- Transient-object handle returned by a successful primary-key creation
(first handle of the transient range). -/
def primaryKeyHandle : Nat := 0x80000000

/-- Modelled from the spec: `CreatePrimary` under the owner hierarchy —
succeeds exactly when the presented authorization matches the hierarchy's
current auth value, and fails with `WrongSecret` otherwise. -/
def createPrimary (st : TPMState) (auth : List Nat) : Except TPMError Nat :=
  if auth = st.ownerAuth then
    Except.ok primaryKeyHandle
  else
    Except.error TPMError.WrongSecret

/-- Modelled from the spec: the §4.4 lifecycle states of a persistent
session after it has been started (`Active`), and after its release
(`Released`). -/
inductive SessionLifecycle where
  | Active
  | Released
deriving DecidableEq, Repr

/-- Modelled from the spec: a device-handle-backed persistent session — the
descriptor built by the layer's `*Session` constructors together with its
lifecycle state. -/
structure PersistentSession where
  desc : tpm2.hmacSession
  state : SessionLifecycle
deriving DecidableEq, Repr

/-- Modelled from the spec: the device's bounded pool of session slots,
tracked as the number of free slots. -/
structure DeviceState where
  freeSlots : Nat
deriving DecidableEq, Repr

/-- Modelled from the spec: `startSession` — consumes one slot of the
bounded pool and returns an `Active` persistent session, or fails with
`SlotExhausted` when no slot is free. -/
def startSession (d : DeviceState) (s : tpm2.hmacSession) :
    Except TPMError (PersistentSession × DeviceState) :=
  if d.freeSlots = 0 then
    Except.error TPMError.SlotExhausted
  else
    Except.ok (⟨s, SessionLifecycle.Active⟩, ⟨d.freeSlots - 1⟩)

/-- Modelled from the spec: the release callback of a persistent session —
the first invocation frees the session's device slot and succeeds; a
release of an already-released session reports `AlreadyReleased` rather
than silently succeeding. -/
def releaseSession (d : DeviceState) (p : PersistentSession) :
    Except TPMError (PersistentSession × DeviceState) :=
  match p.state with
  | SessionLifecycle.Active =>
    Except.ok ({ p with state := SessionLifecycle.Released }, ⟨d.freeSlots + 1⟩)
  | SessionLifecycle.Released =>
    Except.error TPMError.AlreadyReleased

/-- Modelled from the spec: one step of a CFB-style stream cipher (§4.3,
AES-CFB or equivalent stream construction) at byte granularity — each
ciphertext byte is the plaintext byte XORed with the block function applied
to the previous ciphertext byte, the chain seeded with an IV. -/
def cfbEncryptBytes (E : Nat → Nat) : Nat → List Nat → List Nat
  | _, [] => []
  | prev, p :: ps =>
    let c := Nat.xor p (E prev)
    c :: cfbEncryptBytes E c ps

/-- Modelled from the spec: the CFB-style decryption matching
`cfbEncryptBytes` — each plaintext byte is the ciphertext byte XORed with
the block function applied to the previous ciphertext byte. -/
def cfbDecryptBytes (E : Nat → Nat) : Nat → List Nat → List Nat
  | _, [] => []
  | prev, c :: cs => Nat.xor c (E prev) :: cfbDecryptBytes E c cs

/-- Modelled from the spec: the KDFa-derived symmetric key of §4.3,
abstracted to a seed computed from the secret material recorded in the
session descriptor. -/
def sessionKeySeed (s : tpm2.hmacSession) : Nat :=
  (s.opts.auth ++ s.opts.bindAuth).foldl (fun a b => a * 257 + b + 1) 7

/-- Modelled from the spec: the session's CFB block function, derived from
the session key seed. -/
def paramKeyFn (s : tpm2.hmacSession) (prev : Nat) : Nat :=
  Nat.xor (sessionKeySeed s) (prev * 131 + 17)

/-- Modelled from the spec: `encryptParameter(session, plaintext)` — the
parameter-encryption codec applied to the first sensitive command
parameter with the session's derived CFB keystream. -/
def encryptParameter (s : tpm2.hmacSession) (plaintext : List Nat) : List Nat :=
  cfbEncryptBytes (paramKeyFn s) 0 plaintext

/-- Modelled from the spec: `decryptParameter(session, ciphertext)` — the
inverse of `encryptParameter` under the same session. -/
def decryptParameter (s : tpm2.hmacSession) (ciphertext : List Nat) : List Nat :=
  cfbDecryptBytes (paramKeyFn s) 0 ciphertext

/-- Modelled from the spec: the command-execution engine accepting two
independent sessions (§4.3, §4.5, and `TestHierarchicalKeyCreation`) — the
first session authorizes against the target entity's auth value, failing
with `WrongSecret` on a mismatch; the second, when it carries an
encryption configuration, encrypts the sensitive parameter on the wire. -/
def executeTwoSessions (authSess encSess : tpm2.hmacSession)
    (entityAuth sensitive : List Nat) : Except TPMError (List Nat) :=
  if authSess.opts.auth = entityAuth then
    match encSess.opts.encryption with
    | some _ => Except.ok (encryptParameter encSess sensitive)
    | none => Except.ok sensitive
  else
    Except.error TPMError.WrongSecret

/-- Modelled from the spec: the nonce state of a persistent session (§3
`NonceState`, §4.2) — the session descriptor, the CSPRNG modelled as a
stream of draws, and the number of exchanges performed so far. -/
structure PersistentSessionNonces where
  desc : tpm2.hmacSession
  rng : Nat → List Nat
  drawn : Nat

/-- Modelled from the spec: one command exchange of a persistent session —
the engine regenerates `nonceCaller` internally by drawing the next CSPRNG
value, never reusing a prior draw. -/
def exchangeNonce (s : PersistentSessionNonces) :
    List Nat × PersistentSessionNonces :=
  (s.rng s.drawn, { s with drawn := s.drawn + 1 })

/-- Modelled from the spec: the sequence of `nonceCaller` values used by
`n` successive exchanges of one persistent session. -/
def runExchanges : PersistentSessionNonces → Nat → List (List Nat)
  | _, 0 => []
  | s, n + 1 => (exchangeNonce s).1 :: runExchanges (exchangeNonce s).2 n

/-- ASCII bytes of the payload `"secret"` used by the unseal tests. -/
def secretBytes : List Nat := [115, 101, 99, 114, 101, 116]

/-- ASCII bytes of the password `"mypassword"` used by the unseal tests. -/
def mypasswordBytes : List Nat :=
  [109, 121, 112, 97, 115, 115, 119, 111, 114, 100]

/-- ASCII bytes of the owner-hierarchy auth `"mysecret"` used by
`TestHierarchyAuth`. -/
def mysecretBytes : List Nat := [109, 121, 115, 101, 99, 114, 101, 116]

/-- ASCII bytes of the password `"wrongpassword"` used by
`TestHierarchyAuth`. -/
def wrongpasswordBytes : List Nat :=
  [119, 114, 111, 110, 103, 112, 97, 115, 115, 119, 111, 114, 100]

/-- The CFB-style byte codec round-trips: decryption with the same block
function and chain state recovers the plaintext. -/
theorem cfbDecryptBytes_cfbEncryptBytes (E : Nat → Nat) :
    ∀ (prev : Nat) (p : List Nat),
      cfbDecryptBytes E prev (cfbEncryptBytes E prev p) = p
  | _, [] => rfl
  | prev, p :: ps => by
    have hxor : Nat.xor (Nat.xor p (E prev)) (E prev) = p := by
      change p ^^^ E prev ^^^ E prev = p
      rw [Nat.xor_assoc, Nat.xor_self, Nat.xor_zero]
    simp only [cfbEncryptBytes, cfbDecryptBytes]
    rw [cfbDecryptBytes_cfbEncryptBytes E _ ps, hxor]

/-- The nonces drawn by `n` exchanges are exactly the next `n` values of
the session's CSPRNG stream, in order. -/
theorem runExchanges_eq (n : Nat) :
    ∀ s : PersistentSessionNonces,
      runExchanges s n = (List.range' s.drawn n).map s.rng := by
  induction n with
  | zero => intro _; rfl
  | succ n ih =>
    intro s
    obtain ⟨d0, rng, k⟩ := s
    show rng k :: runExchanges ⟨d0, rng, k + 1⟩ n
        = (List.range' k (n + 1)).map rng
    rw [ih ⟨d0, rng, k + 1⟩]
    rfl

/-- C3: every session constructor of the layer (`Unbound`, `UnboundSession`,
`Bound`, `BoundSession`, `Salted`, `SaltedSession`, `HMACAuth`) passes a
nonceCaller size of exactly 16 bytes to the session, for every input. -/
theorem c3_nonce_size_sixteen (a av ba : List Nat) (bh sh : Nat)
    (bn : tpm2.TPM2BName) (sp : tpm2.TPMTPublic) :
    (unbound.Unbound a).nonceSize = 16 ∧
    (unbound.UnboundSession a).nonceSize = 16 ∧
    (bound.Bound bh bn ba av).nonceSize = 16 ∧
    (bound.BoundSession bh bn ba av).nonceSize = 16 ∧
    (salted.Salted sh sp).nonceSize = 16 ∧
    (salted.SaltedSession sh sp).nonceSize = 16 ∧
    (common.HMACAuth a).nonceSize = 16 :=
  ⟨rfl, rfl, rfl, rfl, rfl, rfl, rfl⟩

/-- C10: for every input, every constructor of the layer builds a SHA-256
session, and every encrypting constructor (`Unbound`, `Bound`, `Salted` and
their persistent variants) requests exactly AES-128-CFB parameter
encryption in direction `InOut` — no caller input can change these. -/
theorem c10_fixed_hash_and_encryption (a av ba : List Nat) (bh sh : Nat)
    (bn : tpm2.TPM2BName) (sp : tpm2.TPMTPublic) :
    (unbound.Unbound a).hash = tpm2.TPMAlgID.SHA256 ∧
    (unbound.UnboundSession a).hash = tpm2.TPMAlgID.SHA256 ∧
    (bound.Bound bh bn ba av).hash = tpm2.TPMAlgID.SHA256 ∧
    (bound.BoundSession bh bn ba av).hash = tpm2.TPMAlgID.SHA256 ∧
    (salted.Salted sh sp).hash = tpm2.TPMAlgID.SHA256 ∧
    (salted.SaltedSession sh sp).hash = tpm2.TPMAlgID.SHA256 ∧
    (common.HMACAuth a).hash = tpm2.TPMAlgID.SHA256 ∧
    (unbound.Unbound a).opts.encryption =
      some ⟨128, tpm2.SymMode.CFB, tpm2.EncryptDirection.dirInOut⟩ ∧
    (unbound.UnboundSession a).opts.encryption =
      some ⟨128, tpm2.SymMode.CFB, tpm2.EncryptDirection.dirInOut⟩ ∧
    (bound.Bound bh bn ba av).opts.encryption =
      some ⟨128, tpm2.SymMode.CFB, tpm2.EncryptDirection.dirInOut⟩ ∧
    (bound.BoundSession bh bn ba av).opts.encryption =
      some ⟨128, tpm2.SymMode.CFB, tpm2.EncryptDirection.dirInOut⟩ ∧
    (salted.Salted sh sp).opts.encryption =
      some ⟨128, tpm2.SymMode.CFB, tpm2.EncryptDirection.dirInOut⟩ ∧
    (salted.SaltedSession sh sp).opts.encryption =
      some ⟨128, tpm2.SymMode.CFB, tpm2.EncryptDirection.dirInOut⟩ :=
  ⟨rfl, rfl, rfl, rfl, rfl, rfl, rfl, rfl, rfl, rfl, rfl, rfl, rfl⟩

/-- C2: every descriptor built by the layer has at most one of bind/salt
active — `Bound`/`BoundSession` set bind and never salt,
`Salted`/`SaltedSession` set salt and never bind,
`Unbound`/`UnboundSession`/`HMACAuth` set neither; each constructor's
options pass the spec's bind/salt validation, while a configuration with
both bind and salt set is rejected with `InvalidConfiguration`. -/
theorem c2_bind_salt_exclusive (a av ba : List Nat) (bh sh : Nat)
    (bn : tpm2.TPM2BName) (sp : tpm2.TPMTPublic) :
    ((unbound.Unbound a).opts.bindHandle = none ∧
      (unbound.Unbound a).opts.saltHandle = none) ∧
    ((unbound.UnboundSession a).opts.bindHandle = none ∧
      (unbound.UnboundSession a).opts.saltHandle = none) ∧
    ((bound.Bound bh bn ba av).opts.bindHandle = some bh ∧
      (bound.Bound bh bn ba av).opts.saltHandle = none) ∧
    ((bound.BoundSession bh bn ba av).opts.bindHandle = some bh ∧
      (bound.BoundSession bh bn ba av).opts.saltHandle = none) ∧
    ((salted.Salted sh sp).opts.bindHandle = none ∧
      (salted.Salted sh sp).opts.saltHandle = some sh) ∧
    ((salted.SaltedSession sh sp).opts.bindHandle = none ∧
      (salted.SaltedSession sh sp).opts.saltHandle = some sh) ∧
    ((common.HMACAuth a).opts.bindHandle = none ∧
      (common.HMACAuth a).opts.saltHandle = none) ∧
    validateDescriptor (unbound.Unbound a).opts =
      Except.ok (unbound.Unbound a).opts ∧
    validateDescriptor (bound.Bound bh bn ba av).opts =
      Except.ok (bound.Bound bh bn ba av).opts ∧
    validateDescriptor (salted.Salted sh sp).opts =
      Except.ok (salted.Salted sh sp).opts ∧
    validateDescriptor (common.HMACAuth a).opts =
      Except.ok (common.HMACAuth a).opts ∧
    validateDescriptor
        (tpm2.Salted sh sp (tpm2.Bound bh bn ba tpm2.defaultOptions)) =
      Except.error TPMError.InvalidConfiguration :=
  ⟨⟨rfl, rfl⟩, ⟨rfl, rfl⟩, ⟨rfl, rfl⟩, ⟨rfl, rfl⟩, ⟨rfl, rfl⟩, ⟨rfl, rfl⟩,
   ⟨rfl, rfl⟩, rfl, rfl, rfl, rfl, rfl⟩

/-- C8: authorization and parameter encryption are independent and
composable — `Salted`/`SaltedSession` carry an encryption configuration
and no authorization secret, `HMACAuth` carries the authorization secret
and no encryption configuration, and a command executed with an `HMACAuth`
authorization session plus a `Salted` encryption session succeeds,
encrypting the sensitive parameter. -/
theorem c8_auth_encryption_composable (a sensitive : List Nat) (sh : Nat)
    (sp : tpm2.TPMTPublic) :
    (salted.Salted sh sp).opts.auth = [] ∧
    (salted.Salted sh sp).opts.encryption =
      some ⟨128, tpm2.SymMode.CFB, tpm2.EncryptDirection.dirInOut⟩ ∧
    (salted.SaltedSession sh sp).opts.auth = [] ∧
    (salted.SaltedSession sh sp).opts.encryption =
      some ⟨128, tpm2.SymMode.CFB, tpm2.EncryptDirection.dirInOut⟩ ∧
    (common.HMACAuth a).opts.auth = a ∧
    (common.HMACAuth a).opts.encryption = none ∧
    executeTwoSessions (common.HMACAuth a) (salted.Salted sh sp) a sensitive =
      Except.ok (encryptParameter (salted.Salted sh sp) sensitive) := by
  refine ⟨rfl, rfl, rfl, rfl, rfl, rfl, ?_⟩
  have hcond : (common.HMACAuth a).opts.auth = a := rfl
  unfold executeTwoSessions
  rw [if_pos hcond]
  rfl

/-- C5: after the owner hierarchy's auth value has been changed to
`"mysecret"`, primary-key creation authorized with `"wrongpassword"` fails
with `WrongSecret`, and the same creation authorized with `"mysecret"`
succeeds. -/
theorem c5_hierarchy_auth_change (st : TPMState) :
    createPrimary (hierarchyChangeAuth st mysecretBytes) wrongpasswordBytes =
      Except.error TPMError.WrongSecret ∧
    createPrimary (hierarchyChangeAuth st mysecretBytes) mysecretBytes =
      Except.ok primaryKeyHandle :=
  ⟨rfl, rfl⟩

/-- C6: sealing `"secret"` under a key with no password and unsealing
returns `"secret"` unmodified; sealing it under a key with password
`"mypassword"` makes unsealing fail with `WrongSecret` for any wrong
password while unsealing with `"mypassword"` returns the payload. -/
theorem c6_seal_unseal_passwords (w : List Nat) (hw : w ≠ mypasswordBytes) :
    sealData tpm2.TPMAlgID.SHA256 [] secretBytes =
      Except.ok ⟨tpm2.TPMAlgID.SHA256, [], secretBytes⟩ ∧
    unsealData ⟨tpm2.TPMAlgID.SHA256, [], secretBytes⟩ [] =
      Except.ok secretBytes ∧
    sealData tpm2.TPMAlgID.SHA256 mypasswordBytes secretBytes =
      Except.ok ⟨tpm2.TPMAlgID.SHA256, mypasswordBytes, secretBytes⟩ ∧
    unsealData ⟨tpm2.TPMAlgID.SHA256, mypasswordBytes, secretBytes⟩ w =
      Except.error TPMError.WrongSecret ∧
    unsealData ⟨tpm2.TPMAlgID.SHA256, mypasswordBytes, secretBytes⟩
        mypasswordBytes = Except.ok secretBytes := by
  refine ⟨rfl, rfl, rfl, ?_, rfl⟩
  unfold unsealData
  rw [if_neg hw]

/-- Witness for C6 at the wrong password `"wrongpassword"`. -/
theorem c6_seal_unseal_passwords_witness :
    wrongpasswordBytes ≠ mypasswordBytes ∧
    unsealData ⟨tpm2.TPMAlgID.SHA256, mypasswordBytes, secretBytes⟩
        wrongpasswordBytes = Except.error TPMError.WrongSecret :=
  ⟨by decide, (c6_seal_unseal_passwords wrongpasswordBytes (by decide)).2.2.2.1⟩

/-- C7: the maximum sealed-data size is the constant 128 for every
name-hash algorithm; sealing exactly 128 bytes succeeds and sealing 129
bytes fails, for each algorithm. -/
theorem c7_max_sealed_size_uniform (alg : tpm2.TPMAlgID) :
    maxSealedDataSize alg = 128 ∧
    sealData alg [] (List.replicate 128 0) =
      Except.ok ⟨alg, [], List.replicate 128 0⟩ ∧
    sealData alg [] (List.replicate 129 0) =
      Except.error TPMError.SealDataTooLarge :=
  ⟨rfl, rfl, rfl⟩

/-- C1: for payloads of at most the 128-byte maximum, parameter decryption
inverts parameter encryption and sealing then unsealing with the correct
authorization returns the payload exactly; for larger payloads, sealing
fails with an error instead of truncating. -/
theorem c1_seal_roundtrip_and_size_limit (s : tpm2.hmacSession)
    (alg : tpm2.TPMAlgID) (userAuth P : List Nat) :
    (P.length ≤ maxSealedDataSize alg →
      decryptParameter s (encryptParameter s P) = P ∧
      sealData alg userAuth P = Except.ok ⟨alg, userAuth, P⟩ ∧
      unsealData ⟨alg, userAuth, P⟩ userAuth = Except.ok P) ∧
    (maxSealedDataSize alg < P.length →
      sealData alg userAuth P = Except.error TPMError.SealDataTooLarge) := by
  constructor
  · intro h
    refine ⟨cfbDecryptBytes_cfbEncryptBytes (paramKeyFn s) 0 P, ?_, ?_⟩
    · unfold sealData
      rw [if_pos h]
    · unfold unsealData
      rw [if_pos rfl]
  · intro h
    unfold sealData
    rw [if_neg (Nat.not_le.mpr h)]

/-- Witness for C1 at a 3-byte payload (round-trip) and a 129-byte payload
(size rejection). -/
theorem c1_seal_roundtrip_and_size_limit_witness :
    [1, 2, 3].length ≤ maxSealedDataSize tpm2.TPMAlgID.SHA256 ∧
    decryptParameter (unbound.Unbound [])
        (encryptParameter (unbound.Unbound []) [1, 2, 3]) = [1, 2, 3] ∧
    maxSealedDataSize tpm2.TPMAlgID.SHA256 < (List.replicate 129 0).length ∧
    sealData tpm2.TPMAlgID.SHA256 [] (List.replicate 129 0) =
      Except.error TPMError.SealDataTooLarge :=
  ⟨by decide,
   ((c1_seal_roundtrip_and_size_limit (unbound.Unbound [])
      tpm2.TPMAlgID.SHA256 [] [1, 2, 3]).1 (by decide)).1,
   by decide,
   (c1_seal_roundtrip_and_size_limit (unbound.Unbound [])
      tpm2.TPMAlgID.SHA256 [] (List.replicate 129 0)).2 (by decide)⟩

/-- C4: starting a persistent session consumes a free slot; the first
release succeeds and returns the slot, and a second release of the same
session reports `AlreadyReleased` instead of silently succeeding. -/
theorem c4_release_exactly_once (d : DeviceState) (s : tpm2.hmacSession)
    (h : 0 < d.freeSlots) :
    startSession d s =
      Except.ok (⟨s, SessionLifecycle.Active⟩, ⟨d.freeSlots - 1⟩) ∧
    releaseSession ⟨d.freeSlots - 1⟩ ⟨s, SessionLifecycle.Active⟩ =
      Except.ok (⟨s, SessionLifecycle.Released⟩, d) ∧
    releaseSession d ⟨s, SessionLifecycle.Released⟩ =
      Except.error TPMError.AlreadyReleased := by
  refine ⟨?_, ?_, rfl⟩
  · unfold startSession
    rw [if_neg (Nat.pos_iff_ne_zero.mp h)]
  · have h1 : d.freeSlots - 1 + 1 = d.freeSlots := by omega
    show (Except.ok
        (({ desc := s, state := SessionLifecycle.Released } : PersistentSession),
         ({ freeSlots := d.freeSlots - 1 + 1 } : DeviceState)) :
        Except TPMError (PersistentSession × DeviceState))
      = Except.ok ({ desc := s, state := SessionLifecycle.Released }, d)
    rw [h1]

/-- Witness for C4 on a device with four free slots and an unbound
persistent session. -/
theorem c4_release_exactly_once_witness :
    0 < (DeviceState.mk 4).freeSlots ∧
    (startSession ⟨4⟩ (unbound.UnboundSession []) =
      Except.ok
        (⟨unbound.UnboundSession [], SessionLifecycle.Active⟩, ⟨3⟩) ∧
    releaseSession ⟨3⟩ ⟨unbound.UnboundSession [], SessionLifecycle.Active⟩ =
      Except.ok
        (⟨unbound.UnboundSession [], SessionLifecycle.Released⟩, ⟨4⟩) ∧
    releaseSession ⟨4⟩
        ⟨unbound.UnboundSession [], SessionLifecycle.Released⟩ =
      Except.error TPMError.AlreadyReleased) :=
  ⟨by decide,
   c4_release_exactly_once ⟨4⟩ (unbound.UnboundSession []) (by decide)⟩

/-- C9: across `n` exchanges of one persistent session, the `nonceCaller`
values are exactly the next `n` fresh CSPRNG draws in order — the engine
regenerates the nonce before every exchange — and, the CSPRNG stream being
collision-free, they are pairwise distinct. -/
theorem c9_nonce_rotation_distinct (s : PersistentSessionNonces) (n : Nat)
    (hinj : Function.Injective s.rng) :
    runExchanges s n = (List.range' s.drawn n).map s.rng ∧
    (runExchanges s n).Pairwise (fun x y => x ≠ y) := by
  refine ⟨runExchanges_eq n s, ?_⟩
  rw [runExchanges_eq n s]
  exact List.Nodup.map hinj (List.nodup_range' s.drawn n)

/-- Witness for C9: 100 exchanges of an unbound persistent session with an
injective nonce stream give pairwise-distinct nonceCaller values. -/
theorem c9_nonce_rotation_distinct_witness :
    (runExchanges ⟨unbound.UnboundSession [], fun i => [i], 0⟩ 100).Pairwise
      (fun x y => x ≠ y) :=
  (c9_nonce_rotation_distinct ⟨unbound.UnboundSession [], fun i => [i], 0⟩ 100
    (by intro a b hab; simpa using hab)).2
